import Mathlib

/-!
# Verification of the copilot-lambda-starter Task CRUD service

Shallow embedding of the TypeScript source under `src/`: the Task data
model and zod schemas (`src/models/Task.ts`), the response formatter
(`src/utils/response.ts`), the DynamoDB-backed task service
(`src/services/taskService.ts`) and the five Lambda handlers
(`src/handlers/*.ts`).

Modelling conventions:
* `JSON.parse` is an external collaborator; an event body is embedded as
  `Option Json`, where `none` stands for an absent body or one that is
  not valid JSON (the handlers treat both identically, via
  `z.string().transform(JSON.parse)` which fails on a missing string or
  a parse error), and `some j` stands for a body that parsed to the
  JSON value `j`.
* `JSON.stringify` is likewise external: a response carries its body as
  the `Json` value handed to `createResponse`; every body is therefore
  JSON by construction.
* DynamoDB is embedded as a list of `Task` items keyed by their `id`
  attribute (the table's partition key). Each service function returns
  the list of store operations it performed, so that "no store call was
  made" is a provable statement.
* A possible DynamoDB client failure is a boolean `fail` parameter on
  each handler: when set, the first store call of the invocation throws
  and the handler's catch block answers 500, exactly as in the source.
* `uuidv4()` is an external random source: the generated identifier is
  a `genId : String` parameter of `createTask`.
-/

namespace Starter

/-- A JSON value, as produced by `JSON.parse`. Numbers are restricted to
integers; no claim depends on fractional numeric literals. -/
inductive Json where
  | obj (fields : List (String × Json))
  | arr (elems : List Json)
  | str (s : String)
  | num (n : Int)
  | bool (b : Bool)
  | null

/-- Field lookup in a JSON object, as property access on the parsed value. -/
def jLookup (key : String) (fields : List (String × Json)) : Option Json :=
  List.lookup key fields

/-- The Task entity of `src/models/Task.ts` (`TaskSchema`): `detail` and
`dueAt` are optional, `isComplete` is a plain boolean once materialised. -/
structure Task where
  id : String
  title : String
  detail : Option String
  isComplete : Bool
  dueAt : Option String
deriving DecidableEq, Repr

/-- `CreateTaskRequest` of `src/models/Task.ts`: `id` optional (max 24, no
minimum), `title` required (1..100), `detail` optional (max 2000),
`isComplete` optional boolean (`.default(false).optional()`: an absent
input stays absent because `ZodOptional` short-circuits `undefined`),
`dueAt` optional ISO-8601 date-time string. -/
structure CreateTaskRequest where
  id : Option String
  title : String
  detail : Option String
  isComplete : Option Bool
  dueAt : Option String
deriving DecidableEq, Repr

/-- `UpdateTaskRequest` of `src/models/Task.ts`: all four fields optional;
`title` has only a maximum length (no `min(1)`). -/
structure UpdateTaskRequest where
  title : Option String
  detail : Option String
  isComplete : Option Bool
  dueAt : Option String
deriving DecidableEq, Repr

/-- Number of fields set in an update request. The handler computes it as
`Object.keys(updateValidation.data).length` and the service as
`updateExpressions.length`; on JSON-derived input both equal the number
of present (non-`undefined`) recognised fields. -/
def numFieldsSet (r : UpdateTaskRequest) : Nat :=
  (if r.title.isSome then 1 else 0) + (if r.detail.isSome then 1 else 0) +
    (if r.isComplete.isSome then 1 else 0) + (if r.dueAt.isSome then 1 else 0)

/-- Consume exactly `n` decimal digits from the front of a character list. -/
def takeDigits : Nat → List Char → Option (List Char)
  | 0, cs => some cs
  | _ + 1, [] => none
  | n + 1, c :: cs => if c.isDigit then takeDigits n cs else none

/-- Consume one expected character. -/
def expectChar (c : Char) : List Char → Option (List Char)
  | [] => none
  | d :: cs => if d = c then some cs else none

/-- Zero or more digits followed by a final literal Z. -/
def digitsThenZ : List Char → Bool
  | [] => false
  | ['Z'] => true
  | c :: cs => c.isDigit && digitsThenZ cs

/-- The tail of zod's default datetime regex after the seconds field:
an optional fractional part (a dot and at least one digit) and a final
Z terminating the string. -/
def fracThenZ : List Char → Bool
  | ['Z'] => true
  | '.' :: c :: cs => c.isDigit && digitsThenZ (c :: cs)
  | _ => false

/-- zod's `z.string().datetime()` with default options, the validator used
for `dueAt`: the regex `\d{4}-\d{2}-\d{2}T\d{2}:\d{2}:\d{2}(\.\d+)?Z`
anchored at both ends. A bare calendar date such as `2025-06-30` does not
match (no `T` section). -/
def isIsoDateTime (s : String) : Bool :=
  let afterDate := (takeDigits 4 s.toList).bind (expectChar '-') |>.bind (takeDigits 2)
    |>.bind (expectChar '-') |>.bind (takeDigits 2)
  let afterTime := afterDate.bind (expectChar 'T') |>.bind (takeDigits 2)
    |>.bind (expectChar ':') |>.bind (takeDigits 2) |>.bind (expectChar ':')
    |>.bind (takeDigits 2)
  match afterTime with
  | some rest => fracThenZ rest
  | none => false

/-- Issues for one string-typed field: the zod checks of the chain run in
order and every failing check contributes its message. -/
def stringFieldIssues (minLen : Option (Nat × String)) (maxLen : Nat)
    (maxMsg : String) (s : String) : List String :=
  (match minLen with
   | some (m, msg) => if s.length < m then [msg] else []
   | none => []) ++ (if s.length > maxLen then [maxMsg] else [])

/-- Parse an optional string field of a zod object schema: an absent key
is accepted as `none`; a present value must be a string passing the
length/format checks. Type errors use zod's generic invalid-type text. -/
def parseOptStringField (fields : List (String × Json)) (key : String)
    (check : String → List String) : Except (List String) (Option String) :=
  match jLookup key fields with
  | none => .ok none
  | some (.str s) =>
      match check s with
      | [] => .ok (some s)
      | issues => .error issues
  | some _ => .error ["Expected string"]

/-- Parse an optional boolean field of a zod object schema. -/
def parseOptBoolField (fields : List (String × Json)) (key : String) :
    Except (List String) (Option Bool) :=
  match jLookup key fields with
  | none => .ok none
  | some (.bool b) => .ok (some b)
  | some _ => .error ["Expected boolean"]

/-- Combine two field results, concatenating issue lists in shape order,
as zod collects every field's issues before reporting. -/
def combineFields {α β : Type} (a : Except (List String) α)
    (b : Except (List String) β) : Except (List String) (α × β) :=
  match a, b with
  | .ok x, .ok y => .ok (x, y)
  | .error e₁, .error e₂ => .error (e₁ ++ e₂)
  | .error e₁, .ok _ => .error e₁
  | .ok _, .error e₂ => .error e₂

/-- The `dueAt` check shared by the create and update schemas:
`z.string().datetime('Due date must be a valid ISO-8601 date string')`. -/
def dueAtCheck (s : String) : List String :=
  if isIsoDateTime s then [] else ["Due date must be a valid ISO-8601 date string"]

/-- `CreateTaskSchema.safeParse` on a parsed JSON value: shape keys in
declaration order `id`, `title`, `detail`, `isComplete`, `dueAt`; `title`
required with `min(1)`/`max(100)`; `id` at most 24 characters; `detail`
at most 2000; failure carries the concatenated issue messages. -/
def createTaskSchemaParse (j : Json) : Except (List String) CreateTaskRequest :=
  match j with
  | .obj fields =>
      let idR := parseOptStringField fields "id"
        (stringFieldIssues none 24 "ID must be 24 characters or less")
      let titleR : Except (List String) String :=
        match jLookup "title" fields with
        | none => .error ["Required"]
        | some (.str s) =>
            match stringFieldIssues (some (1, "Title is required")) 100
                "Title must be 100 characters or less" s with
            | [] => .ok s
            | issues => .error issues
        | some _ => .error ["Expected string"]
      let detailR := parseOptStringField fields "detail"
        (stringFieldIssues none 2000 "Detail must be 2000 characters or less")
      let completeR := parseOptBoolField fields "isComplete"
      let dueAtR := parseOptStringField fields "dueAt" dueAtCheck
      match combineFields idR (combineFields titleR
          (combineFields detailR (combineFields completeR dueAtR))) with
      | .ok (i, t, d, c, u) =>
          .ok { id := i, title := t, detail := d, isComplete := c, dueAt := u }
      | .error issues => .error issues
  | _ => .error ["Expected object"]

/-- `UpdateTaskSchema.safeParse` on a parsed JSON value: every field
optional, `title` with only `max(100)` (note: no minimum length),
`detail` with `max(2000)`, `isComplete` boolean, `dueAt` date-time. -/
def updateTaskSchemaParse (j : Json) : Except (List String) UpdateTaskRequest :=
  match j with
  | .obj fields =>
      let titleR := parseOptStringField fields "title"
        (stringFieldIssues none 100 "Title must be 100 characters or less")
      let detailR := parseOptStringField fields "detail"
        (stringFieldIssues none 2000 "Detail must be 2000 characters or less")
      let completeR := parseOptBoolField fields "isComplete"
      let dueAtR := parseOptStringField fields "dueAt" dueAtCheck
      match combineFields titleR (combineFields detailR
          (combineFields completeR dueAtR)) with
      | .ok (t, d, c, u) =>
          .ok { title := t, detail := d, isComplete := c, dueAt := u }
      | .error issues => .error issues
  | _ => .error ["Expected object"]

/-- A store operation issued against DynamoDB, recorded so that theorems
can speak about which calls an invocation performed. -/
inductive StoreOp where
  | get (id : String)
  | put (item : Task)
  | updateItem (id : String) (patch : UpdateTaskRequest)
  | deleteItem (id : String)
  | scan
deriving DecidableEq, Repr

/-- The tasks table: a list of items whose partition key is the `id`
attribute of the item itself. -/
abbrev DB := List Task

/-- `GetCommand` on key `{id}`. -/
def dbLookup (id : String) (db : DB) : Option Task :=
  db.find? (fun t => t.id == id)

/-- `PutCommand`: unconditional write, replacing any item at the key. -/
def dbPut (item : Task) (db : DB) : DB :=
  item :: db.filter (fun t => t.id != item.id)

/-- `DeleteCommand` on key `{id}`. -/
def dbDelete (id : String) (db : DB) : DB :=
  db.filter (fun t => t.id != id)

/-- Apply the `SET` assignments of the service's `UpdateCommand` to a
stored item: exactly the fields present in the request are assigned. -/
def applyPatch (t : Task) (r : UpdateTaskRequest) : Task :=
  { id := t.id
    title := r.title.getD t.title
    detail := match r.detail with | some d => some d | none => t.detail
    isComplete := r.isComplete.getD t.isComplete
    dueAt := match r.dueAt with | some u => some u | none => t.dueAt }

/-- `UpdateCommand` with `ReturnValues: ALL_NEW` on an existing key. The
service only issues it after confirming existence, so the upsert branch
DynamoDB would take on a missing key is unreachable and modelled as
`none`. -/
def dbUpdate (id : String) (patch : UpdateTaskRequest) (db : DB) :
    Option (Task × DB) :=
  match dbLookup id db with
  | none => none
  | some t =>
      let t₁ := applyPatch t patch
      some (t₁, dbPut t₁ db)

namespace TaskService

/-- `TaskService.createTask` of `src/services/taskService.ts`: generates a
fresh id with `uuidv4()` (the `genId` parameter) — the request's optional
`id` field is never consulted — applies the `?? false` default to
`isComplete`, and persists with an unconditional `PutCommand`. -/
def createTask (genId : String) (req : CreateTaskRequest) (db : DB) :
    Task × DB × List StoreOp :=
  let task : Task :=
    { id := genId
      title := req.title
      detail := req.detail
      isComplete := req.isComplete.getD false
      dueAt := req.dueAt }
  (task, dbPut task db, [StoreOp.put task])

/-- `TaskService.listTasks`: a full `ScanCommand`. -/
def listTasks (db : DB) : List Task × List StoreOp :=
  (db, [StoreOp.scan])

/-- `TaskService.getTaskById`: a single `GetCommand`, `undefined` when the
item is absent. -/
def getTaskById (id : String) (db : DB) : Option Task × List StoreOp :=
  (dbLookup id db, [StoreOp.get id])

/-- `TaskService.updateTask`: fetch the existing record (absent →
`undefined`); if no request field is set, return the existing task with
no further store call; otherwise issue the `UpdateCommand` built from
exactly the fields present and return the `ALL_NEW` attributes. -/
def updateTask (id : String) (req : UpdateTaskRequest) (db : DB) :
    Option Task × DB × List StoreOp :=
  match dbLookup id db with
  | none => (none, db, [StoreOp.get id])
  | some existing =>
      if numFieldsSet req = 0 then
        (some existing, db, [StoreOp.get id])
      else
        match dbUpdate id req db with
        | some (updated, db₁) =>
            (some updated, db₁, [StoreOp.get id, StoreOp.updateItem id req])
        | none => (none, db, [StoreOp.get id])

/-- Modelled from the spec: `TaskService.deleteTask` is referenced by the
delete handler and mocked in its unit tests, but no version of
`src/services/taskService.ts` in the repository defines it. Per spec
§4.5 and `docs/requirements/05-delete-task.md`, the service first checks
whether the task exists; if absent it reports `false`, otherwise it
deletes the item and reports `true`. -/
def deleteTask (id : String) (db : DB) : Bool × DB × List StoreOp :=
  match dbLookup id db with
  | none => (false, db, [StoreOp.get id])
  | some _ => (true, dbDelete id db, [StoreOp.get id, StoreOp.deleteItem id])

end TaskService

/-- Modelled from the spec: the `CORS_ALLOW_ORIGIN` environment variable
is consumed by `src/utils/response.ts` via `config.CORS_ALLOW_ORIGIN`,
but the version of `src/utils/config.ts` that declares it is not among
the sources; per spec §6 and the repository's configuration and CORS
requirement documents, it defaults to the wildcard origin when unset. -/
def corsAllowOrigin (env : Option String) : String :=
  env.getD "*"

/-- The API Gateway proxy result of `src/utils/response.ts`, with the body
kept as the `Json` value handed to `JSON.stringify`. -/
structure APIGatewayProxyResult where
  statusCode : Nat
  headers : List (String × String)
  body : Json

/-- `createResponse` of `src/utils/response.ts`: fixed `Content-Type` plus
the configured CORS origin on every response. -/
def createResponse (origin : String) (statusCode : Nat) (body : Json) :
    APIGatewayProxyResult :=
  { statusCode := statusCode
    headers := [("Content-Type", "application/json"),
                ("Access-Control-Allow-Origin", origin)]
    body := body }

/-- `ok` of `src/utils/response.ts`. -/
def respOk (origin : String) (body : Json) : APIGatewayProxyResult :=
  createResponse origin 200 body

/-- `created` of `src/utils/response.ts`. -/
def respCreated (origin : String) (body : Json) : APIGatewayProxyResult :=
  createResponse origin 201 body

/-- `noContent` of `src/utils/response.ts`: a 204 whose body is the empty
object. -/
def noContent (origin : String) : APIGatewayProxyResult :=
  createResponse origin 204 (Json.obj [])

/-- `badRequest` of `src/utils/response.ts`. -/
def badRequest (origin : String) (message : String) : APIGatewayProxyResult :=
  createResponse origin 400 (Json.obj [("message", Json.str message)])

/-- `notFound` of `src/utils/response.ts`. -/
def notFound (origin : String) (message : String) : APIGatewayProxyResult :=
  createResponse origin 404 (Json.obj [("message", Json.str message)])

/-- `internalServerError` of `src/utils/response.ts`. -/
def internalServerError (origin : String) (message : String) :
    APIGatewayProxyResult :=
  createResponse origin 500 (Json.obj [("message", Json.str message)])

/-- The slice of an API Gateway proxy event the handlers inspect:
`pathParameters` (an object of string values, or null) and the request
body, embedded post-`JSON.parse` as described in the header comment. -/
structure APIGatewayProxyEvent where
  pathParameters : Option (List (String × String))
  body : Option Json

/-- The handlers' path validation
`z.object({ pathParameters: z.object({ taskId: z.string().min(1) }) })`:
yields the task id exactly when `pathParameters` is present and holds a
non-empty string `taskId`. -/
def pathTaskId (event : APIGatewayProxyEvent) : Option String :=
  match event.pathParameters with
  | none => none
  | some ps =>
      match List.lookup "taskId" ps with
      | none => none
      | some s => if s.length ≥ 1 then some s else none

/-- Serialisation of a task for a response body, in the field order of the
source's object literal; `JSON.stringify` drops `undefined` fields. -/
def taskToJson (t : Task) : Json :=
  Json.obj ([("id", Json.str t.id), ("title", Json.str t.title)]
    ++ (match t.detail with | some d => [("detail", Json.str d)] | none => [])
    ++ [("isComplete", Json.bool t.isComplete)]
    ++ (match t.dueAt with | some u => [("dueAt", Json.str u)] | none => []))

/-- `errors.map((e) => e.message).join(', ')` on a zod failure. -/
def joinIssues (issues : List String) : String :=
  String.intercalate ", " issues

namespace Handler

/-- The `createTask` handler of `src/handlers/createTask.ts`: JSON body →
`CreateTaskSchema` → `TaskService.createTask` → 201, with 400 for a
malformed body or schema violation and 500 for a store failure. Returns
the response together with the resulting store and the store operations
performed. -/
def createTask (origin genId : String) (event : APIGatewayProxyEvent)
    (db : DB) (fail : Bool) : APIGatewayProxyResult × DB × List StoreOp :=
  match event.body with
  | none =>
      (badRequest origin "Invalid request format: The request body must be valid JSON",
       db, [])
  | some j =>
      match createTaskSchemaParse j with
      | .error issues =>
          (badRequest origin ("Invalid task data: " ++ joinIssues issues), db, [])
      | .ok req =>
          if fail then
            (internalServerError origin
              "An unexpected error occurred while creating the task", db, [])
          else
            match TaskService.createTask genId req db with
            | (task, db₁, ops) => (respCreated origin (taskToJson task), db₁, ops)

/-- The `listTasks` handler of `src/handlers/listTasks.ts`. -/
def listTasks (origin : String) (_event : APIGatewayProxyEvent) (db : DB)
    (fail : Bool) : APIGatewayProxyResult × DB × List StoreOp :=
  if fail then
    (internalServerError origin
      "An unexpected error occurred while retrieving tasks", db, [])
  else
    match TaskService.listTasks db with
    | (tasks, ops) => (respOk origin (Json.arr (tasks.map taskToJson)), db, ops)

/-- The `getTask` handler of `src/handlers/getTask.ts`: path validation →
`TaskService.getTaskById` → 200 / 404, with 400 on a missing or empty
`taskId` (before any store access) and 500 on a store failure. -/
def getTask (origin : String) (event : APIGatewayProxyEvent) (db : DB)
    (fail : Bool) : APIGatewayProxyResult × DB × List StoreOp :=
  match pathTaskId event with
  | none => (badRequest origin "Invalid request: taskId is required", db, [])
  | some taskId =>
      if fail then
        (internalServerError origin
          "An unexpected error occurred while retrieving the task", db, [])
      else
        match TaskService.getTaskById taskId db with
        | (none, ops) =>
            (notFound origin ("Task with ID " ++ taskId ++ " not found"), db, ops)
        | (some t, ops) => (respOk origin (taskToJson t), db, ops)

/-- The `updateTask` handler of `src/handlers/updateTask.ts`, in source
order: path validation → body JSON validation → `UpdateTaskSchema` →
the zero-fields check (`Object.keys(...).length === 0` → 400) → the
service call, whose `undefined` result maps to 404. -/
def updateTask (origin : String) (event : APIGatewayProxyEvent) (db : DB)
    (fail : Bool) : APIGatewayProxyResult × DB × List StoreOp :=
  match pathTaskId event with
  | none =>
      (badRequest origin "Invalid request: taskId path variable is required", db, [])
  | some taskId =>
      match event.body with
      | none =>
          (badRequest origin
            "Invalid request format: The request body must be valid JSON", db, [])
      | some j =>
          match updateTaskSchemaParse j with
          | .error issues =>
              (badRequest origin ("Invalid update task data: " ++ joinIssues issues),
               db, [])
          | .ok req =>
              if numFieldsSet req = 0 then
                (badRequest origin "At least one field must be provided for update",
                 db, [])
              else if fail then
                (internalServerError origin
                  "An unexpected error occurred while updating the task", db, [])
              else
                match TaskService.updateTask taskId req db with
                | (none, db₁, ops) =>
                    (notFound origin ("Task with ID " ++ taskId ++ " not found"),
                     db₁, ops)
                | (some t, db₁, ops) => (respOk origin (taskToJson t), db₁, ops)

/-- The `deleteTask` handler of `src/handlers/deleteTask.ts`: path
validation → `TaskService.deleteTask` → 204 (empty object body) when the
service reports a deletion, 404 otherwise. -/
def deleteTask (origin : String) (event : APIGatewayProxyEvent) (db : DB)
    (fail : Bool) : APIGatewayProxyResult × DB × List StoreOp :=
  match pathTaskId event with
  | none => (badRequest origin "Invalid request: taskId is required", db, [])
  | some taskId =>
      if fail then
        (internalServerError origin
          "An unexpected error occurred while deleting the task", db, [])
      else
        match TaskService.deleteTask taskId db with
        | (false, db₁, ops) =>
            (notFound origin ("Task with ID " ++ taskId ++ " not found"), db₁, ops)
        | (true, db₁, ops) => (noContent origin, db₁, ops)

end Handler


/-- Looking an id up after an unconditional put of an item carrying that id
finds exactly the item written. -/
lemma dbLookup_dbPut_of_eq (id : String) (t : Task) (db : DB) (h : t.id = id) :
    dbLookup id (dbPut t db) = some t := by
  simp [dbLookup, dbPut, List.find?, h]

/-- After deleting an id, a lookup of that id fails. -/
lemma dbLookup_dbDelete_self (id : String) (db : DB) :
    dbLookup id (dbDelete id db) = none := by
  simp [dbDelete, dbLookup, List.find?_eq_none, List.mem_filter]

/-- An item found under a key carries that key as its `id` attribute. -/
lemma dbLookup_id_eq (id : String) (t : Task) (db : DB)
    (h : dbLookup id db = some t) : t.id = id := by
  have := List.find?_some h
  simpa using this

/-- Claim C1, as stated, is false: the update handler's zero-fields check
runs before any store access, so a well-formed `{}` body on an id absent
from the store is answered 400, not 404. Concrete input: `taskId`
`missing-id` on an empty store with body `{}`. -/
theorem update_empty_on_missing_id_returns_400_not_404 :
    (Handler.updateTask "*" ⟨some [("taskId", "missing-id")], some (Json.obj [])⟩
        [] false).1.statusCode = 400 ∧
    ¬ (Handler.updateTask "*" ⟨some [("taskId", "missing-id")], some (Json.obj [])⟩
        [] false).1.statusCode = 404 := by
  decide

/-- Claim C1 (amended): the empty-update check happens before existence is
checked — for every store state, existing id or not, an update with a
well-formed JSON body that sets zero fields is rejected with 400 and
message "At least one field must be provided for update", with the store
untouched and no store operation performed. -/
theorem update_empty_body_always_400 (origin taskId : String) (db : DB)
    (fail : Bool) (h : 1 ≤ taskId.length) :
    Handler.updateTask origin ⟨some [("taskId", taskId)], some (Json.obj [])⟩ db fail =
      (badRequest origin "At least one field must be provided for update", db, []) := by
  simp [Handler.updateTask, pathTaskId, List.lookup, h, updateTaskSchemaParse,
    parseOptStringField, parseOptBoolField, jLookup, combineFields, numFieldsSet]

/-- Claim C1 witness: the amended theorem applied on a store that does
contain the addressed task. -/
theorem update_empty_body_always_400_witness :
    Handler.updateTask "*" ⟨some [("taskId", "abc")], some (Json.obj [])⟩
        [⟨"abc", "Original Title", none, false, none⟩] false =
      (badRequest "*" "At least one field must be provided for update",
       [⟨"abc", "Original Title", none, false, none⟩], []) :=
  update_empty_body_always_400 "*" "abc"
    [⟨"abc", "Original Title", none, false, none⟩] false (by decide)

/-- Claim C2: for every stored task and every update request setting a
proper non-empty subset of the four fields, the service's update leaves
every unnamed field at its prior stored value and sets every named field
to exactly the requested value; the updated record is both returned and
found in the store afterwards. -/
theorem updateTask_frame_effect (id : String) (req : UpdateTaskRequest)
    (db : DB) (t : Task) (hfind : dbLookup id db = some t)
    (hlo : 1 ≤ numFieldsSet req) (hhi : numFieldsSet req < 4) :
    ∃ t₁, (TaskService.updateTask id req db).1 = some t₁ ∧
      dbLookup id (TaskService.updateTask id req db).2.1 = some t₁ ∧
      t₁.id = t.id ∧
      (∀ v, req.title = some v → t₁.title = v) ∧
      (req.title = none → t₁.title = t.title) ∧
      (∀ v, req.detail = some v → t₁.detail = some v) ∧
      (req.detail = none → t₁.detail = t.detail) ∧
      (∀ v, req.isComplete = some v → t₁.isComplete = v) ∧
      (req.isComplete = none → t₁.isComplete = t.isComplete) ∧
      (∀ v, req.dueAt = some v → t₁.dueAt = some v) ∧
      (req.dueAt = none → t₁.dueAt = t.dueAt) := by
  have hne : numFieldsSet req ≠ 0 := by omega
  have hid : t.id = id := dbLookup_id_eq id t db hfind
  refine ⟨applyPatch t req, ?_, ?_, ?_, ?_, ?_, ?_, ?_, ?_, ?_, ?_, ?_⟩
  · simp [TaskService.updateTask, hfind, hne, dbUpdate]
  · simp only [TaskService.updateTask, hfind, hne, dbUpdate, if_neg hne]
    exact dbLookup_dbPut_of_eq id (applyPatch t req) db (by simp [applyPatch, hid])
  · simp [applyPatch]
  · intro v hv; simp [applyPatch, hv]
  · intro hv; simp [applyPatch, hv]
  · intro v hv; simp [applyPatch, hv]
  · intro hv; simp [applyPatch, hv]
  · intro v hv; simp [applyPatch, hv]
  · intro hv; simp [applyPatch, hv]
  · intro v hv; simp [applyPatch, hv]
  · intro hv; simp [applyPatch, hv]

/-- Claim C2 witness: a title-only update of a stored task. -/
theorem updateTask_frame_effect_witness :
    ∃ t₁, (TaskService.updateTask "abc" ⟨some "New Title", none, none, none⟩
        [⟨"abc", "Old Title", some "Keep detail", false,
          some "2026-01-01T00:00:00Z"⟩]).1 = some t₁ ∧
      dbLookup "abc" (TaskService.updateTask "abc" ⟨some "New Title", none, none, none⟩
        [⟨"abc", "Old Title", some "Keep detail", false,
          some "2026-01-01T00:00:00Z"⟩]).2.1 = some t₁ ∧
      t₁.id = (⟨"abc", "Old Title", some "Keep detail", false,
          some "2026-01-01T00:00:00Z"⟩ : Task).id ∧
      (∀ v, (some "New Title" : Option String) = some v → t₁.title = v) ∧
      ((some "New Title" : Option String) = none → t₁.title = "Old Title") ∧
      (∀ v, (none : Option String) = some v → t₁.detail = some v) ∧
      ((none : Option String) = none → t₁.detail = some "Keep detail") ∧
      (∀ v, (none : Option Bool) = some v → t₁.isComplete = v) ∧
      ((none : Option Bool) = none → t₁.isComplete = false) ∧
      (∀ v, (none : Option String) = some v → t₁.dueAt = some v) ∧
      ((none : Option String) = none → t₁.dueAt = some "2026-01-01T00:00:00Z") :=
  updateTask_frame_effect "abc" ⟨some "New Title", none, none, none⟩
    [⟨"abc", "Old Title", some "Keep detail", false, some "2026-01-01T00:00:00Z"⟩]
    ⟨"abc", "Old Title", some "Keep detail", false, some "2026-01-01T00:00:00Z"⟩
    (by decide) (by decide) (by decide)

/-- Claim C3: evaluation at the failing input. A valid create request is
accepted (201) yet the persisted record's id is the 36-character
`uuidv4()` value, violating the data model's 24-character bound on `id`
(`TaskSchema` in `src/models/Task.ts`). -/
theorem createTask_persists_36_char_id :
    (Handler.createTask "*" "123e4567-e89b-42d3-a456-426614174000"
        ⟨none, some (Json.obj [("title", Json.str "Buy milk")])⟩
        [] false).1.statusCode = 201 ∧
    ((dbLookup "123e4567-e89b-42d3-a456-426614174000"
        (Handler.createTask "*" "123e4567-e89b-42d3-a456-426614174000"
          ⟨none, some (Json.obj [("title", Json.str "Buy milk")])⟩ [] false).2.1).map
        (fun t => t.id.length)) = some 36 ∧
    ¬ (36 ≤ 24) :=
  ⟨rfl, rfl, by decide⟩

/-- Claim C4: evaluation at the failing input. The service persists the
freshly generated `uuidv4()` value as the id even when the create request
supplies one; the supplied id is never consulted. -/
theorem createTask_ignores_supplied_id :
    (TaskService.createTask "123e4567-e89b-42d3-a456-426614174001"
        ⟨some "my-custom-id", "Test Task", none, none, none⟩ []).1.id =
      "123e4567-e89b-42d3-a456-426614174001" ∧
    "123e4567-e89b-42d3-a456-426614174001" ≠ "my-custom-id" :=
  ⟨rfl, by decide⟩

/-- Claim C5: with a non-empty `taskId` and no store failure, the delete
handler answers 204 with an empty-object body and removes the record when
the id was present, and answers 404 with message "Task with ID {id} not
found" leaving the store unchanged when it was absent. -/
theorem deleteTask_handler_conditional_delete (origin taskId : String)
    (b : Option Json) (db : DB) (h : 1 ≤ taskId.length) :
    ((dbLookup taskId db).isSome →
      (Handler.deleteTask origin ⟨some [("taskId", taskId)], b⟩ db
        false).1.statusCode = 204 ∧
      (Handler.deleteTask origin ⟨some [("taskId", taskId)], b⟩ db
        false).1.body = Json.obj [] ∧
      dbLookup taskId (Handler.deleteTask origin ⟨some [("taskId", taskId)], b⟩ db
        false).2.1 = none) ∧
    (dbLookup taskId db = none →
      (Handler.deleteTask origin ⟨some [("taskId", taskId)], b⟩ db
        false).1.statusCode = 404 ∧
      (Handler.deleteTask origin ⟨some [("taskId", taskId)], b⟩ db
        false).1.body =
        Json.obj [("message", Json.str ("Task with ID " ++ taskId ++ " not found"))] ∧
      (Handler.deleteTask origin ⟨some [("taskId", taskId)], b⟩ db
        false).2.1 = db) := by
  constructor
  · intro hsome
    obtain ⟨t, ht⟩ := Option.isSome_iff_exists.mp hsome
    simp [Handler.deleteTask, pathTaskId, List.lookup, h, TaskService.deleteTask, ht,
      noContent, createResponse, dbLookup_dbDelete_self]
  · intro hnone
    simp [Handler.deleteTask, pathTaskId, List.lookup, h, TaskService.deleteTask, hnone,
      notFound, createResponse]

/-- Claim C5 witness: deleting the stored id `abc`. -/
theorem deleteTask_handler_conditional_delete_witness :
    ((dbLookup "abc" [(⟨"abc", "Buy milk", none, false, none⟩ : Task)]).isSome →
      (Handler.deleteTask "*" ⟨some [("taskId", "abc")], none⟩
        [⟨"abc", "Buy milk", none, false, none⟩] false).1.statusCode = 204 ∧
      (Handler.deleteTask "*" ⟨some [("taskId", "abc")], none⟩
        [⟨"abc", "Buy milk", none, false, none⟩] false).1.body = Json.obj [] ∧
      dbLookup "abc" (Handler.deleteTask "*" ⟨some [("taskId", "abc")], none⟩
        [⟨"abc", "Buy milk", none, false, none⟩] false).2.1 = none) ∧
    (dbLookup "abc" [(⟨"abc", "Buy milk", none, false, none⟩ : Task)] = none →
      (Handler.deleteTask "*" ⟨some [("taskId", "abc")], none⟩
        [⟨"abc", "Buy milk", none, false, none⟩] false).1.statusCode = 404 ∧
      (Handler.deleteTask "*" ⟨some [("taskId", "abc")], none⟩
        [⟨"abc", "Buy milk", none, false, none⟩] false).1.body =
        Json.obj [("message", Json.str ("Task with ID " ++ "abc" ++ " not found"))] ∧
      (Handler.deleteTask "*" ⟨some [("taskId", "abc")], none⟩
        [⟨"abc", "Buy milk", none, false, none⟩] false).2.1 =
        [⟨"abc", "Buy milk", none, false, none⟩]) :=
  deleteTask_handler_conditional_delete "*" "abc" none
    [⟨"abc", "Buy milk", none, false, none⟩] (by decide)

/-- Claim C6: evaluation at the failing input. The create handler rejects
the body `{"title":"Buy milk","dueAt":"2025-06-30"}` with 400 and the
`dueAt` validation message, because `z.string().datetime()` does not
accept a bare calendar date; the store stays empty (no 201 is produced,
contrary to the handler's own unit test). -/
theorem create_bare_date_rejected_400 :
    (Handler.createTask "*" "00000000-0000-4000-8000-000000000000"
        ⟨none, some (Json.obj [("title", Json.str "Buy milk"),
          ("dueAt", Json.str "2025-06-30")])⟩ [] false).1.statusCode = 400 ∧
    (Handler.createTask "*" "00000000-0000-4000-8000-000000000000"
        ⟨none, some (Json.obj [("title", Json.str "Buy milk"),
          ("dueAt", Json.str "2025-06-30")])⟩ [] false).1.body =
      Json.obj [("message",
        Json.str "Invalid task data: Due date must be a valid ISO-8601 date string")] ∧
    (Handler.createTask "*" "00000000-0000-4000-8000-000000000000"
        ⟨none, some (Json.obj [("title", Json.str "Buy milk"),
          ("dueAt", Json.str "2025-06-30")])⟩ [] false).2.1 = [] :=
  ⟨rfl, rfl, rfl⟩

/-- Claim C7: every response of each of the five handlers, on every input,
store state and store outcome, carries exactly the headers `Content-Type:
application/json` and `Access-Control-Allow-Origin: <configured origin>`;
a 204 response's body is the empty JSON object (every body is a JSON
value by construction of `createResponse`); and the configured origin
defaults to `*` when the environment variable is unset. -/
theorem handlers_response_envelope (origin genId : String)
    (ev : APIGatewayProxyEvent) (db : DB) (fail : Bool) :
    ((Handler.createTask origin genId ev db fail).1.headers =
        [("Content-Type", "application/json"), ("Access-Control-Allow-Origin", origin)] ∧
      ((Handler.createTask origin genId ev db fail).1.statusCode = 204 →
        (Handler.createTask origin genId ev db fail).1.body = Json.obj [])) ∧
    ((Handler.listTasks origin ev db fail).1.headers =
        [("Content-Type", "application/json"), ("Access-Control-Allow-Origin", origin)] ∧
      ((Handler.listTasks origin ev db fail).1.statusCode = 204 →
        (Handler.listTasks origin ev db fail).1.body = Json.obj [])) ∧
    ((Handler.getTask origin ev db fail).1.headers =
        [("Content-Type", "application/json"), ("Access-Control-Allow-Origin", origin)] ∧
      ((Handler.getTask origin ev db fail).1.statusCode = 204 →
        (Handler.getTask origin ev db fail).1.body = Json.obj [])) ∧
    ((Handler.updateTask origin ev db fail).1.headers =
        [("Content-Type", "application/json"), ("Access-Control-Allow-Origin", origin)] ∧
      ((Handler.updateTask origin ev db fail).1.statusCode = 204 →
        (Handler.updateTask origin ev db fail).1.body = Json.obj [])) ∧
    ((Handler.deleteTask origin ev db fail).1.headers =
        [("Content-Type", "application/json"), ("Access-Control-Allow-Origin", origin)] ∧
      ((Handler.deleteTask origin ev db fail).1.statusCode = 204 →
        (Handler.deleteTask origin ev db fail).1.body = Json.obj [])) ∧
    corsAllowOrigin none = "*" := by
  refine ⟨⟨?_, ?_⟩, ⟨?_, ?_⟩, ⟨?_, ?_⟩, ⟨?_, ?_⟩, ⟨?_, ?_⟩, rfl⟩ <;>
    simp only [Handler.createTask, Handler.listTasks, Handler.getTask,
      Handler.updateTask, Handler.deleteTask] <;>
    (repeat' split) <;>
    simp [respOk, respCreated, noContent, badRequest, notFound, internalServerError,
      createResponse]

/-- Claim C7 witness: the envelope of one concrete delete invocation. -/
theorem handlers_response_envelope_witness :
    (Handler.deleteTask "https://example.com" ⟨none, none⟩ [] false).1.headers =
      [("Content-Type", "application/json"),
       ("Access-Control-Allow-Origin", "https://example.com")] :=
  (handlers_response_envelope "https://example.com" "g" ⟨none, none⟩ [] false).2.2.2.2.1.1

/-- Claim C8: a valid create request without `isComplete` produces a 201
whose body is the created task, with `isComplete` equal to `false` both
in the returned task and in the record persisted to the store. -/
theorem create_defaults_isComplete_false (origin genId : String) (j : Json)
    (req : CreateTaskRequest) (db : DB)
    (hparse : createTaskSchemaParse j = .ok req) (habs : req.isComplete = none) :
    (Handler.createTask origin genId ⟨none, some j⟩ db false).1.statusCode = 201 ∧
    (Handler.createTask origin genId ⟨none, some j⟩ db false).1.body =
      taskToJson (TaskService.createTask genId req db).1 ∧
    (TaskService.createTask genId req db).1.isComplete = false ∧
    dbLookup genId (Handler.createTask origin genId ⟨none, some j⟩ db false).2.1 =
      some (TaskService.createTask genId req db).1 := by
  refine ⟨?_, ?_, ?_, ?_⟩
  · simp [Handler.createTask, hparse, respCreated, createResponse]
  · simp [Handler.createTask, hparse, respCreated, createResponse]
  · simp [TaskService.createTask, habs]
  · simp only [Handler.createTask, hparse]
    exact dbLookup_dbPut_of_eq genId _ db rfl

/-- Claim C8 witness: creating `{"title":"Test Task"}`. -/
theorem create_defaults_isComplete_false_witness :
    (Handler.createTask "*" "11111111-1111-4111-8111-111111111111"
        ⟨none, some (Json.obj [("title", Json.str "Test Task")])⟩ [] false).1.statusCode = 201 ∧
    (Handler.createTask "*" "11111111-1111-4111-8111-111111111111"
        ⟨none, some (Json.obj [("title", Json.str "Test Task")])⟩ [] false).1.body =
      taskToJson (TaskService.createTask "11111111-1111-4111-8111-111111111111"
        ⟨none, "Test Task", none, none, none⟩ []).1 ∧
    (TaskService.createTask "11111111-1111-4111-8111-111111111111"
        ⟨none, "Test Task", none, none, none⟩ []).1.isComplete = false ∧
    dbLookup "11111111-1111-4111-8111-111111111111"
        (Handler.createTask "*" "11111111-1111-4111-8111-111111111111"
          ⟨none, some (Json.obj [("title", Json.str "Test Task")])⟩ [] false).2.1 =
      some (TaskService.createTask "11111111-1111-4111-8111-111111111111"
        ⟨none, "Test Task", none, none, none⟩ []).1 :=
  create_defaults_isComplete_false "*" "11111111-1111-4111-8111-111111111111"
    (Json.obj [("title", Json.str "Test Task")])
    ⟨none, "Test Task", none, none, none⟩ [] rfl rfl

/-- Claim C9: at the service level, updating an existing id with a request
in which all four fields are unset touches the store only with the
existence read — no write — and returns the existing task unchanged; the
empty-update 400 lives solely in the HTTP handler. -/
theorem updateTask_service_empty_update_no_write (id : String) (t : Task)
    (db : DB) (h : dbLookup id db = some t) :
    TaskService.updateTask id ⟨none, none, none, none⟩ db =
      (some t, db, [StoreOp.get id]) := by
  simp [TaskService.updateTask, h, numFieldsSet]

/-- Claim C9 witness: the empty service-level update of a stored task. -/
theorem updateTask_service_empty_update_no_write_witness :
    TaskService.updateTask "abc" ⟨none, none, none, none⟩
        [⟨"abc", "Buy milk", none, false, none⟩] =
      (some ⟨"abc", "Buy milk", none, false, none⟩,
       [⟨"abc", "Buy milk", none, false, none⟩], [StoreOp.get "abc"]) :=
  updateTask_service_empty_update_no_write "abc"
    ⟨"abc", "Buy milk", none, false, none⟩
    [⟨"abc", "Buy milk", none, false, none⟩] (by decide)

/-- Claim C10: whenever the event's path parameters do not carry a
non-empty `taskId`, the get, update and delete handlers answer 400
immediately, performing no store operation and leaving the store
unchanged. -/
theorem invalid_taskId_returns_400_store_unchanged (origin : String)
    (ev : APIGatewayProxyEvent) (db : DB) (fail : Bool)
    (h : pathTaskId ev = none) :
    Handler.getTask origin ev db fail =
      (badRequest origin "Invalid request: taskId is required", db, []) ∧
    Handler.updateTask origin ev db fail =
      (badRequest origin "Invalid request: taskId path variable is required", db, []) ∧
    Handler.deleteTask origin ev db fail =
      (badRequest origin "Invalid request: taskId is required", db, []) := by
  refine ⟨?_, ?_, ?_⟩ <;>
    simp [Handler.getTask, Handler.updateTask, Handler.deleteTask, h]

/-- Claim C10 witness: an event with null path parameters, on a non-empty
store. -/
theorem invalid_taskId_returns_400_store_unchanged_witness :
    Handler.getTask "*" ⟨none, none⟩ [⟨"abc", "Buy milk", none, false, none⟩] false =
      (badRequest "*" "Invalid request: taskId is required",
       [⟨"abc", "Buy milk", none, false, none⟩], []) ∧
    Handler.updateTask "*" ⟨none, none⟩ [⟨"abc", "Buy milk", none, false, none⟩] false =
      (badRequest "*" "Invalid request: taskId path variable is required",
       [⟨"abc", "Buy milk", none, false, none⟩], []) ∧
    Handler.deleteTask "*" ⟨none, none⟩ [⟨"abc", "Buy milk", none, false, none⟩] false =
      (badRequest "*" "Invalid request: taskId is required",
       [⟨"abc", "Buy milk", none, false, none⟩], []) :=
  invalid_taskId_returns_400_store_unchanged "*" ⟨none, none⟩
    [⟨"abc", "Buy milk", none, false, none⟩] false rfl

end Starter
